import Mathlib

/-!
Verification of the YOLO detection post-processing node
(`route_yolo_ros2/detect.py`) against its natural-language specification.

The pure decision logic of the node is embedded shallowly:
* images are pixel matrices (`Img`);
* the external collaborators (the YOLO detector, the EasyOCR text reader,
  the OpenCV drawing / resizing / color primitives and the publishers) are
  parameters of the embedded functions, bundled in `Deps`;
* the ROS node's single mutable slot `self.cam_image` becomes an explicit
  `NodeState` threaded through the handlers;
* Python floats are modelled as rationals, pixel coordinates as integers.
-/

/-- A frame: pixel matrix with height, width and a pixel lookup.
`px i j` is the pixel at row `i`, column `j`; out-of-range lookups are
irrelevant to the theorems, which always constrain indices. -/
structure Img where
  h : Nat
  w : Nat
  px : Nat → Nat → Int

/-- `cv2.flip(img, 0)`: flip around the x-axis (reverse the rows). -/
def flipV (img : Img) : Img :=
  ⟨img.h, img.w, fun i j => img.px (img.h - 1 - i) j⟩

/-- `cv2.flip(img, 1)`: flip around the y-axis (reverse the columns). -/
def flipH (img : Img) : Img :=
  ⟨img.h, img.w, fun i j => img.px i (img.w - 1 - j)⟩

/-- A 180-degree rotation: rows and columns both reversed. -/
def rot180 (img : Img) : Img :=
  ⟨img.h, img.w, fun i j => img.px (img.h - 1 - i) (img.w - 1 - j)⟩

/-- The zero-filled square canvas of `letterbox_resize` (detect.py lines
173-176): side `max h w`, the input copied at row offset `(side-h)/2`
and column offset `(side-w)/2`, zeros elsewhere. -/
def letterboxCanvas (img : Img) : Img where
  h := max img.h img.w
  w := max img.h img.w
  px := fun i j =>
    if (max img.h img.w - img.h) / 2 ≤ i ∧ i < (max img.h img.w - img.h) / 2 + img.h
        ∧ (max img.h img.w - img.w) / 2 ≤ j ∧ j < (max img.h img.w - img.w) / 2 + img.w
    then img.px (i - (max img.h img.w - img.h) / 2) (j - (max img.h img.w - img.w) / 2)
    else 0

/-- `letterbox_resize` (detect.py lines 168-177). `resize` stands for the
external `cv2.resize`; its argument is `(width, height)` as in OpenCV. -/
def letterbox_resize (resize : Img → Nat × Nat → Img) (img : Img) (size : Nat × Nat) : Img :=
  if img.h = img.w then resize img size
  else resize (letterboxCanvas img) size

/-- The node's mutable state: the single frame slot `self.cam_image`. -/
structure NodeState where
  cam_image : Option Img

/-- `image_callback` (detect.py lines 54-69): letterbox-resize when the
`image_resize` parameter is positive, flip vertically then horizontally
when `flip_image` is set, then overwrite the frame slot. -/
def image_callback (resize : Img → Nat × Nat → Img) (resize_val : Nat) (flip_image : Bool)
    (st : NodeState) (msg : Img) : NodeState :=
  let img0 := if resize_val > 0 then letterbox_resize resize msg (resize_val, resize_val) else msg
  let img1 := if flip_image then flipH (flipV img0) else img0
  { cam_image := some img1 }

/-- One raw detection as produced by the detector: the `xyxy` corner box,
the `xywh` width/height (used by the area computation) and the
confidence. -/
structure Box where
  x1 : ℚ
  y1 : ℚ
  x2 : ℚ
  y2 : ℚ
  bw : ℚ
  bh : ℚ
  conf : ℚ

/-- Python `int(q)`: truncation toward zero. -/
def pyInt (q : ℚ) : ℤ :=
  if 0 ≤ q then ⌊q⌋ else ⌈q⌉

/-- Resolution of one numpy slice endpoint against an axis of length `n`:
negative indices count from the end, and the result is clamped to
`[0, n]` (numpy slicing never raises). -/
def sliceIdx (n : Nat) (i : ℤ) : Nat :=
  (max 0 (min (if i < 0 then i + (n : ℤ) else i) (n : ℤ))).toNat

/-- `image[y1:y2, x1:x2]`: numpy basic slicing of a frame. -/
def crop (image : Img) (y1 y2 x1 x2 : ℤ) : Img where
  h := sliceIdx image.h y2 - sliceIdx image.h y1
  w := sliceIdx image.w x2 - sliceIdx image.w x1
  px := fun i j => image.px (sliceIdx image.h y1 + i) (sliceIdx image.w x1 + j)

/-- The crop the analyzer takes for a box:
`image[int(y1):int(y2), int(x1):int(x2)]` (detect.py lines 125 and 131). -/
def cropBox (image : Img) (box : Box) : Img :=
  crop image (pyInt box.y1) (pyInt box.y2) (pyInt box.x1) (pyInt box.x2)

/-- Python `str.upper()` on ASCII text, character by character. -/
def pyUpper (s : String) : String :=
  ⟨s.data.map Char.toUpper⟩

/-- Python `text.replace("0", "O")`: a fresh string with every `'0'`
replaced by `'O'` (the original is unchanged). -/
def replace0O (s : String) : String :=
  ⟨s.data.map fun c => if c = '0' then 'O' else c⟩

/-- `needle` occurs at the head of `hay`. -/
def isPre : List Char → List Char → Bool
  | [], _ => true
  | _ :: _, [] => false
  | a :: as, b :: bs => a == b && isPre as bs

/-- Python `needle in hay` for strings: `needle` occurs as a contiguous
substring of `hay`. -/
def hasSubstr (needle : List Char) : List Char → Bool
  | [] => needle.isEmpty
  | c :: rest => isPre needle (c :: rest) || hasSubstr needle rest

def stopChars : List Char := ['S', 'T', 'O', 'P']

/-- The string logic of `stopsign_ocr_check` (detect.py lines 147-156) on
the list of strings recognized by the TextReader: scan the readings and
accept on the first whose uppercasing contains `"STOP"`.  Line 151 of the
source calls `text.replace("0", "O")` but discards the returned string
(Python strings are immutable), so the test runs on the raw reading;
the discarded call is kept here as a dead binding. -/
def stopsign_ocr_check (readings : List String) : Bool :=
  readings.any fun text =>
    let _ := replace0O text
    hasSubstr stopChars (pyUpper text).data

/-- Modelled from the spec (§4.3), not from the source: the validator as
specified, actually applying the `0 → O` normalization before the
case-insensitive substring test.  Used only to compare the source
behavior with the specified behavior. -/
def stopsign_check_specified (readings : List String) : Bool :=
  readings.any fun text =>
    hasSubstr stopChars (pyUpper (replace0O text)).data

/-- The external collaborators of the analyzer and handler: the EasyOCR
reader (composed with the BGR→RGB conversion it is fed through), the
HSV vest segmentation of `orange_vest_mask`, the OpenCV drawing
primitives acting on the annotation buffer, and the YOLO `predict`
call keyed by the requested mode.  All are opaque to the core. -/
structure Deps where
  readtext : Img → List String
  segment : Img → Img
  drawLine : Img → ℤ × ℤ → ℤ × ℤ → Img
  drawRect : Img → ℤ × ℤ → ℤ × ℤ → Img
  putText : Img → String → ℚ → ℤ × ℤ → Img
  predict : Img → String → List Box

/-- The observable outcome of `analyze_results`: the running count and
largest area, the annotation buffer (`output_image`), and the traces of
what was handed to the side channels — the vest masks published by
`orange_vest_mask` and the crops handed to the OCR validator. -/
structure AnalyzeOut where
  detected : Nat
  biggest : ℚ
  output_image : Img
  masks : List Img
  ocr_crops : List Img

/-- `100 * ((box.xywh w * box.xywh h) / image_size)` (detect.py line 135). -/
def area_of (image_size : ℚ) (box : Box) : ℚ :=
  100 * ((box.bw * box.bh) / image_size)

/-- The area percentage of a box relative to a frame:
`image_size = image.shape[0] * image.shape[1]` (detect.py line 117). -/
def area_pct (image : Img) (box : Box) : ℚ :=
  area_of ((image.h * image.w : ℕ) : ℚ) box

/-- The counting tail of the loop body (detect.py lines 134-140):
increment the count, update the running maximum under strict `>`, and
draw the rectangle and the mode/confidence label on the annotation
buffer.  The numeric content of the label is absorbed by the abstract
`putText`, which receives the mode string and the raw confidence. -/
def countStep (e : Deps) (image_size : ℚ) (mode : String) (box : Box) (st : AnalyzeOut) :
    AnalyzeOut :=
  { st with
    detected := st.detected + 1
    biggest := if area_of image_size box > st.biggest then area_of image_size box else st.biggest
    output_image :=
      e.putText
        (e.drawRect st.output_image (pyInt box.x1, pyInt box.y1) (pyInt box.x2, pyInt box.y2))
        mode box.conf (pyInt box.x1, pyInt box.y1 - 10) }

/-- The `if mode == 'person'` block (detect.py lines 130-132): crop the box
from the unannotated frame and hand it to the vest segmenter, whose
mask is published (recorded in `masks`) and never inspected. -/
def maskStep (e : Deps) (image : Img) (mode : String) (box : Box) (st : AnalyzeOut) : AnalyzeOut :=
  if mode = "person" then
    { st with masks := st.masks ++ [e.segment (cropBox image box)] }
  else st

/-- One iteration of the analyzer loop (detect.py lines 122-140).  In stop
mode the crop is taken from the unannotated `image`, handed to the OCR
check, and a failed check annotates the buffer with the red line and
"Fake" label and skips the counting (`continue`). -/
def analyze_box (e : Deps) (image : Img) (image_size : ℚ) (mode : String) (box : Box)
    (st : AnalyzeOut) : AnalyzeOut :=
  if mode = "stop" then
    let sign_image := cropBox image box
    let st1 := { st with ocr_crops := st.ocr_crops ++ [sign_image] }
    if stopsign_ocr_check (e.readtext sign_image) then
      countStep e image_size mode box (maskStep e image mode box st1)
    else
      { st1 with
        output_image :=
          e.putText
            (e.drawLine st1.output_image (pyInt box.x1, pyInt box.y1) (pyInt box.x2, pyInt box.y2))
            ("Fake " ++ mode) box.conf (pyInt box.x1, pyInt box.y1 - 10) }
  else
    countStep e image_size mode box (maskStep e image mode box st)

/-- `analyze_results` (detect.py lines 114-145): fold the loop body over
the detector's boxes, starting from a zero count, a zero maximum and a
fresh copy of the frame as annotation buffer. -/
def analyze_results (e : Deps) (results : List Box) (image : Img) (mode : String) : AnalyzeOut :=
  results.foldl
    (fun st box => analyze_box e image ((image.h * image.w : ℕ) : ℚ) mode box st)
    ⟨0, 0, image, [], []⟩

/-- `detect` (detect.py lines 89-112): copy the cached frame, run the
model on the copy, analyze, and clear the frame slot
(`self.cam_image = None`). -/
def detect (e : Deps) (cam_image : Img) (mode : String) : (ℤ × ℚ) × NodeState :=
  let im := cam_image
  let results := e.predict im mode
  let out := analyze_results e results im mode
  (((out.detected : ℤ), out.biggest), { cam_image := none })

/-- `handle_detection_request` (detect.py lines 71-87): an empty frame
slot answers `(-1, 0.0)` before anything else; an unrecognized target
answers `(0, 0.0)` leaving the slot alone; otherwise the request runs
`detect`, which consumes the slot. -/
def handle_detection_request (e : Deps) (st : NodeState) (target : String) :
    (ℤ × ℚ) × NodeState :=
  match st.cam_image with
  | none => ((-1, 0), st)
  | some img =>
    if ¬ (target = "stop" ∨ target = "tire" ∨ target = "person") then ((0, 0), st)
    else detect e img target

/-- A bounding box that falls outside the frame bounds. -/
def boxOutOfBounds (image : Img) (box : Box) : Prop :=
  box.x1 < 0 ∨ box.y1 < 0 ∨ (image.w : ℚ) < box.x2 ∨ (image.h : ℚ) < box.y2

/-- The four analyzer outputs that are not the annotation buffer agree. -/
@[reducible] def NumEq (s1 s2 : AnalyzeOut) : Prop :=
  s1.detected = s2.detected ∧ s1.biggest = s2.biggest
    ∧ s1.masks = s2.masks ∧ s1.ocr_crops = s2.ocr_crops

/- Concrete instances used by witnesses and counterexamples. -/

/-- Trivial external collaborators: the reader recognizes nothing, the
segmenter and the drawing primitives are inert, the detector returns no
boxes. -/
def extTriv : Deps where
  readtext := fun _ => []
  segment := fun i => i
  drawLine := fun i _ _ => i
  drawRect := fun i _ _ => i
  putText := fun i _ _ _ => i
  predict := fun _ _ => []

/-- A resize model satisfying the OpenCV output-size contract:
`resize img (w, h)` has width `w` and height `h`. -/
def resizeModel : Img → Nat × Nat → Img :=
  fun img s => ⟨s.2, s.1, img.px⟩

/-- A small concrete frame. -/
def imgA : Img := ⟨2, 2, fun i j => (i * 2 + j : ℕ)⟩

/-- A 100 × 100 frame of zeros. -/
def img100 : Img := ⟨100, 100, fun _ _ => 0⟩

/-- A non-square 2 × 1 test image. -/
def img2x1 : Img := ⟨2, 1, fun i _ => (i + 1 : ℕ)⟩

/-- A 50 × 50 box inside a 100 × 100 frame. -/
def box5050 : Box := ⟨10, 10, 60, 60, 50, 50, 9 / 10⟩

/-- A box of area percentage 10 on a 100 × 100 frame. -/
def boxTen : Box := ⟨0, 0, 10, 100, 10, 100, 1 / 2⟩

/-- A box lying entirely outside a 100 × 100 frame, with `xywh` area equal
to the full frame. -/
def oobBox : Box := ⟨200, 200, 300, 300, 100, 100, 9 / 10⟩

/-- The request handler on a state whose frame slot holds a frame, as a
single if-expression: the unrecognized-target early return against the
`detect` path. -/
lemma handle_cached (e : Deps) (st : NodeState) (img : Img) (target : String)
    (hcache : st.cam_image = some img) :
    handle_detection_request e st target
      = if ¬ (target = "stop" ∨ target = "tire" ∨ target = "person") then ((0, 0), st)
        else detect e img target := by
  unfold handle_detection_request
  rw [hcache]

/-- C1 (counterexample). The claim predicts `validate("5T0P") = true`; the
source returns `false` — line 151 discards the result of
`text.replace("0", "O")`, so `"5T0P"` is tested raw and `"5T0P"` does
not contain `"STOP"`.  Moreover even the spec's own normalize-then-test
rule yields `false` here, because the normalized `"5TOP"` still does
not contain `"STOP"`.  `"GO"` yields `false` as claimed. -/
theorem stopsign_check_claim_cex :
    stopsign_ocr_check ["5T0P"] = false
      ∧ stopsign_check_specified ["5T0P"] = false
      ∧ stopsign_ocr_check ["GO"] = false := by
  refine ⟨by decide, by decide, by decide⟩

/-- C1 (amended). The validator's `0 → O` replacement has no effect (its
result is discarded), so each recognized string is tested raw by a
case-insensitive substring test for `"STOP"`: `"st0p"` is rejected by
the source even though the specified normalize-then-test rule accepts
it; `"5T0P"` is rejected; a reading containing the word `"Stop"`
verbatim is accepted. -/
theorem stopsign_check_no_normalization :
    (∀ readings : List String,
        stopsign_ocr_check readings
          = readings.any fun text => hasSubstr stopChars (pyUpper text).data)
      ∧ stopsign_ocr_check ["st0p"] = false
      ∧ stopsign_check_specified ["st0p"] = true
      ∧ stopsign_ocr_check ["Stop here"] = true :=
  ⟨fun _ => rfl, by decide, by decide, by decide⟩

/-- C2 (counterexample). A request with an unrecognized target made while
the frame cache is empty returns `(-1, 0.0)`, not the claimed
`(0, 0.0)`: the empty-cache check at detect.py line 72 runs before the
target check at line 78. -/
theorem handle_unknown_mode_empty_cache_cex :
    (handle_detection_request extTriv { cam_image := none } "banana").1 = ((-1 : ℤ), (0 : ℚ))
      ∧ ((-1 : ℤ), (0 : ℚ)) ≠ ((0 : ℤ), (0 : ℚ)) :=
  ⟨rfl, by decide⟩

/-- C2 (amended). A request with an unrecognized target made while a frame
is cached returns `(0, 0.0)` and leaves the state — in particular the
frame slot — unchanged, and a subsequent valid request against the
same state reaches `detect` and returns a count that is never the
`-1` sentinel. -/
theorem handle_unknown_mode_cached (e : Deps) (st : NodeState) (img : Img) (target : String)
    (hcache : st.cam_image = some img)
    (hmode : ¬ (target = "stop" ∨ target = "tire" ∨ target = "person")) :
    handle_detection_request e st target = ((0, 0), st)
      ∧ handle_detection_request e st "tire" = detect e img "tire"
      ∧ 0 ≤ (detect e img "tire").1.1 := by
  refine ⟨?_, ?_, ?_⟩
  · rw [handle_cached e st img target hcache, if_pos hmode]
  · rw [handle_cached e st img "tire" hcache, if_neg (by decide)]
  · exact Int.natCast_nonneg _

/-- C2 (witness): the amended theorem applied to a concrete cached frame
and the unknown target `"banana"`. -/
theorem handle_unknown_mode_cached_witness :
    handle_detection_request extTriv { cam_image := some imgA } "banana"
        = ((0, 0), { cam_image := some imgA })
      ∧ handle_detection_request extTriv { cam_image := some imgA } "tire"
          = detect extTriv imgA "tire"
      ∧ 0 ≤ (detect extTriv imgA "tire").1.1 :=
  handle_unknown_mode_cached extTriv { cam_image := some imgA } imgA "banana" rfl (by decide)

/-- C3. A request with a valid mode made while the frame cache is empty
returns the `(-1, 0.0)` sentinel and leaves the state unchanged; no
detector, analyzer or drawing dependency is consulted (the result does
not depend on `e` at all). -/
theorem handle_valid_mode_empty_cache (e : Deps) (target : String)
    (h : target = "stop" ∨ target = "tire" ∨ target = "person") :
    handle_detection_request e { cam_image := none } target
      = ((-1, 0), { cam_image := none }) := rfl

/-- C3 (witness): an empty cache and mode `"tire"` yield `(-1, 0.0)`. -/
theorem handle_valid_mode_empty_cache_witness :
    handle_detection_request extTriv { cam_image := none } "tire"
      = ((-1, 0), { cam_image := none }) :=
  handle_valid_mode_empty_cache extTriv "tire" (Or.inr (Or.inl rfl))

/-- C4. Consume-once: a request with a valid mode against a cached frame
empties the frame slot, and a second valid-mode request without an
intervening frame arrival finds the cache empty and returns the
`(-1, 0.0)` sentinel — so at most one detection pass runs against any
single delivered frame. -/
theorem frame_cache_consume_once (e : Deps) (img : Img) (t1 t2 : String)
    (h1 : t1 = "stop" ∨ t1 = "tire" ∨ t1 = "person")
    (h2 : t2 = "stop" ∨ t2 = "tire" ∨ t2 = "person") :
    (handle_detection_request e { cam_image := some img } t1).2 = { cam_image := none }
      ∧ handle_detection_request e
          (handle_detection_request e { cam_image := some img } t1).2 t2
          = ((-1, 0), { cam_image := none }) := by
  have hstep : (handle_detection_request e { cam_image := some img } t1).2
      = { cam_image := none } := by
    rw [handle_cached e { cam_image := some img } img t1 rfl, if_neg (not_not_intro h1)]
    rfl
  exact ⟨hstep, by rw [hstep]; rfl⟩

/-- C4 (witness): a cached frame, a `"person"` request, then a `"tire"`
request. -/
theorem frame_cache_consume_once_witness :
    (handle_detection_request extTriv { cam_image := some imgA } "person").2
        = { cam_image := none }
      ∧ handle_detection_request extTriv
          (handle_detection_request extTriv { cam_image := some imgA } "person").2 "tire"
          = ((-1, 0), { cam_image := none }) :=
  frame_cache_consume_once extTriv imgA "person" "tire"
    (Or.inr (Or.inr rfl)) (Or.inr (Or.inl rfl))

lemma analyze_box_tire (e : Deps) (image : Img) (isz : ℚ) (b : Box) (st : AnalyzeOut) :
    analyze_box e image isz "tire" b st = countStep e isz "tire" b st := rfl

lemma analyze_box_person (e : Deps) (image : Img) (isz : ℚ) (b : Box) (st : AnalyzeOut) :
    analyze_box e image isz "person" b st
      = countStep e isz "person" b
          { st with masks := st.masks ++ [e.segment (cropBox image b)] } := rfl

lemma analyze_box_stop (e : Deps) (image : Img) (isz : ℚ) (b : Box) (st : AnalyzeOut) :
    analyze_box e image isz "stop" b st
      = if stopsign_ocr_check (e.readtext (cropBox image b)) then
          countStep e isz "stop" b { st with ocr_crops := st.ocr_crops ++ [cropBox image b] }
        else
          { st with
            ocr_crops := st.ocr_crops ++ [cropBox image b]
            output_image :=
              e.putText
                (e.drawLine st.output_image (pyInt b.x1, pyInt b.y1) (pyInt b.x2, pyInt b.y2))
                ("Fake " ++ "stop") b.conf (pyInt b.x1, pyInt b.y1 - 10) } := rfl

lemma analyze_box_other (e : Deps) (image : Img) (isz : ℚ) (mode : String) (b : Box)
    (st : AnalyzeOut) (hs : ¬ mode = "stop") (hp : ¬ mode = "person") :
    analyze_box e image isz mode b st = countStep e isz mode b st := by
  unfold analyze_box maskStep
  rw [if_neg hs, if_neg hp]

/-- The analyzer fold in tire mode: every box is counted, the maximum is
the strict-greater fold of the areas, and the side channels are
untouched. -/
lemma tire_fold (e : Deps) (image : Img) (isz : ℚ) :
    ∀ (boxes : List Box) (st : AnalyzeOut),
      (boxes.foldl (fun s b => analyze_box e image isz "tire" b s) st).detected
          = st.detected + boxes.length
        ∧ (boxes.foldl (fun s b => analyze_box e image isz "tire" b s) st).biggest
            = boxes.foldl (fun q b => if area_of isz b > q then area_of isz b else q) st.biggest
        ∧ (boxes.foldl (fun s b => analyze_box e image isz "tire" b s) st).masks = st.masks
        ∧ (boxes.foldl (fun s b => analyze_box e image isz "tire" b s) st).ocr_crops
            = st.ocr_crops := by
  intro boxes
  induction boxes with
  | nil => intro st; exact ⟨rfl, rfl, rfl, rfl⟩
  | cons b bs ih =>
    intro st
    simp only [List.foldl_cons]
    obtain ⟨h1, h2, h3, h4⟩ := ih (analyze_box e image isz "tire" b st)
    refine ⟨?_, ?_, ?_, ?_⟩
    · rw [h1, analyze_box_tire]; simp [countStep]; omega
    · rw [h2, analyze_box_tire]; rfl
    · rw [h3, analyze_box_tire]; rfl
    · rw [h4, analyze_box_tire]; rfl

/-- The analyzer fold in person mode: every box is counted, the maximum is
the strict-greater fold of the areas, and each box's crop is handed to
the segmenter, in order. -/
lemma person_fold (e : Deps) (image : Img) (isz : ℚ) :
    ∀ (boxes : List Box) (st : AnalyzeOut),
      (boxes.foldl (fun s b => analyze_box e image isz "person" b s) st).detected
          = st.detected + boxes.length
        ∧ (boxes.foldl (fun s b => analyze_box e image isz "person" b s) st).biggest
            = boxes.foldl (fun q b => if area_of isz b > q then area_of isz b else q) st.biggest
        ∧ (boxes.foldl (fun s b => analyze_box e image isz "person" b s) st).masks
            = st.masks ++ boxes.map (fun b => e.segment (cropBox image b))
        ∧ (boxes.foldl (fun s b => analyze_box e image isz "person" b s) st).ocr_crops
            = st.ocr_crops := by
  intro boxes
  induction boxes with
  | nil => intro st; refine ⟨rfl, rfl, by simp, rfl⟩
  | cons b bs ih =>
    intro st
    simp only [List.foldl_cons]
    obtain ⟨h1, h2, h3, h4⟩ := ih (analyze_box e image isz "person" b st)
    refine ⟨?_, ?_, ?_, ?_⟩
    · rw [h1, analyze_box_person]; simp [countStep]; omega
    · rw [h2, analyze_box_person]; rfl
    · rw [h3, analyze_box_person]; simp [countStep]
    · rw [h4, analyze_box_person]; rfl

/-- The analyzer fold in stop mode: every box's crop from the unannotated
frame is handed to the OCR validator, in order, and no vest mask is
produced. -/
lemma stop_fold (e : Deps) (image : Img) (isz : ℚ) :
    ∀ (boxes : List Box) (st : AnalyzeOut),
      (boxes.foldl (fun s b => analyze_box e image isz "stop" b s) st).ocr_crops
          = st.ocr_crops ++ boxes.map (fun b => cropBox image b)
        ∧ (boxes.foldl (fun s b => analyze_box e image isz "stop" b s) st).masks = st.masks := by
  intro boxes
  induction boxes with
  | nil => intro st; refine ⟨by simp, rfl⟩
  | cons b bs ih =>
    intro st
    simp only [List.foldl_cons]
    obtain ⟨h1, h2⟩ := ih (analyze_box e image isz "stop" b st)
    refine ⟨?_, ?_⟩
    · rw [h1, analyze_box_stop]
      by_cases hc : stopsign_ocr_check (e.readtext (cropBox image b)) = true
      · rw [if_pos hc]; simp [countStep]
      · rw [if_neg hc]; simp
    · rw [h2, analyze_box_stop]
      by_cases hc : stopsign_ocr_check (e.readtext (cropBox image b)) = true
      · rw [if_pos hc]; rfl
      · rw [if_neg hc]

/-- One analyzer iteration preserves `NumEq` across a change of the three
drawing primitives: they only touch the annotation buffer. -/
lemma numeq_step (e : Deps) (l r : Img → ℤ × ℤ → ℤ × ℤ → Img)
    (t : Img → String → ℚ → ℤ × ℤ → Img) (image : Img) (isz : ℚ) (mode : String) (b : Box)
    (s1 s2 : AnalyzeOut) (h : NumEq s1 s2) :
    NumEq (analyze_box e image isz mode b s1)
      (analyze_box { e with drawLine := l, drawRect := r, putText := t } image isz mode b s2) := by
  obtain ⟨h1, h2, h3, h4⟩ := h
  have hrt : ({ e with drawLine := l, drawRect := r, putText := t } : Deps).readtext
      = e.readtext := rfl
  have hsg : ({ e with drawLine := l, drawRect := r, putText := t } : Deps).segment
      = e.segment := rfl
  by_cases hs : mode = "stop"
  · subst hs
    rw [analyze_box_stop, analyze_box_stop, hrt]
    by_cases hc : stopsign_ocr_check (e.readtext (cropBox image b)) = true
    · rw [if_pos hc, if_pos hc]
      exact ⟨by simp [countStep, h1], by simp [countStep, h2], by simp [countStep, h3],
        by simp [countStep, h4]⟩
    · rw [if_neg hc, if_neg hc]
      exact ⟨h1, h2, h3, by simp [h4]⟩
  · by_cases hp : mode = "person"
    · subst hp
      rw [analyze_box_person, analyze_box_person, hsg]
      exact ⟨by simp [countStep, h1], by simp [countStep, h2], by simp [countStep, h3],
        by simp [countStep, h4]⟩
    · rw [analyze_box_other e image isz mode b s1 hs hp,
        analyze_box_other _ image isz mode b s2 hs hp]
      exact ⟨by simp [countStep, h1], by simp [countStep, h2], by simp [countStep, h3],
        by simp [countStep, h4]⟩

/-- The analyzer fold preserves `NumEq` across a change of the drawing
primitives, in every mode. -/
lemma numeq_fold (e : Deps) (l r : Img → ℤ × ℤ → ℤ × ℤ → Img)
    (t : Img → String → ℚ → ℤ × ℤ → Img) (image : Img) (isz : ℚ) (mode : String) :
    ∀ (boxes : List Box) (s1 s2 : AnalyzeOut), NumEq s1 s2 →
      NumEq (boxes.foldl (fun s b => analyze_box e image isz mode b s) s1)
        (boxes.foldl
          (fun s b =>
            analyze_box { e with drawLine := l, drawRect := r, putText := t } image isz mode b s)
          s2) := by
  intro boxes
  induction boxes with
  | nil => intro s1 s2 h; exact h
  | cons b bs ih =>
    intro s1 s2 h
    simp only [List.foldl_cons]
    exact ih _ _ (numeq_step e l r t image isz mode b s1 s2 h)

/-- C5. Letterboxing, for any resize primitive obeying the OpenCV
output-size contract: the result of `letterbox_resize` to a square
target is exactly `t × t`; a square input is resized directly; a
non-square input goes through the zero-filled square canvas of side
`max h w`, in which the original content sits at row offset
`(side-h)/2` and column offset `(side-w)/2` and every pixel outside
that rectangle is zero. -/
theorem letterbox_resize_spec (resize : Img → Nat × Nat → Img) (t : Nat) (img : Img)
    (hres : ∀ im s, (resize im s).h = s.2 ∧ (resize im s).w = s.1) :
    ((letterbox_resize resize img (t, t)).h = t ∧ (letterbox_resize resize img (t, t)).w = t)
      ∧ (img.h = img.w → letterbox_resize resize img (t, t) = resize img (t, t))
      ∧ (img.h ≠ img.w → letterbox_resize resize img (t, t) = resize (letterboxCanvas img) (t, t))
      ∧ (letterboxCanvas img).h = max img.h img.w
      ∧ (letterboxCanvas img).w = max img.h img.w
      ∧ (∀ i j, i < img.h → j < img.w →
          (letterboxCanvas img).px ((max img.h img.w - img.h) / 2 + i)
              ((max img.h img.w - img.w) / 2 + j)
            = img.px i j)
      ∧ (∀ i j,
          (i < (max img.h img.w - img.h) / 2 ∨ (max img.h img.w - img.h) / 2 + img.h ≤ i
              ∨ j < (max img.h img.w - img.w) / 2 ∨ (max img.h img.w - img.w) / 2 + img.w ≤ j) →
          (letterboxCanvas img).px i j = 0) := by
  refine ⟨⟨?_, ?_⟩, ?_, ?_, rfl, rfl, ?_, ?_⟩
  · unfold letterbox_resize; split <;> exact (hres _ _).1
  · unfold letterbox_resize; split <;> exact (hres _ _).2
  · intro hsq; unfold letterbox_resize; rw [if_pos hsq]
  · intro hne; unfold letterbox_resize; rw [if_neg hne]
  · intro i j hi hj
    simp only [letterboxCanvas]
    rw [if_pos]
    · have e1 : (max img.h img.w - img.h) / 2 + i - (max img.h img.w - img.h) / 2 = i := by
        omega
      have e2 : (max img.h img.w - img.w) / 2 + j - (max img.h img.w - img.w) / 2 = j := by
        omega
      rw [e1, e2]
    · refine ⟨?_, ?_, ?_, ?_⟩ <;> omega
  · intro i j hout
    simp only [letterboxCanvas]
    rw [if_neg]
    intro hcond
    obtain ⟨c1, c2, c3, c4⟩ := hcond
    omega

/-- C5 (witness): the spec theorem applied to a concrete resize model
(obeying the contract by construction) and a non-square 2 × 1 image. -/
theorem letterbox_resize_spec_witness :
    (letterbox_resize resizeModel img2x1 (3, 3)).h = 3
      ∧ (letterbox_resize resizeModel img2x1 (3, 3)).w = 3 :=
  (letterbox_resize_spec resizeModel 3 img2x1 (fun _ _ => ⟨rfl, rfl⟩)).1

/-- C6. The preprocessor's flip (vertical then horizontal, detect.py lines
65-67) equals a 180-degree rotation of the frame, pixel for pixel, for
every input image; and with the flip flag set, `image_callback` stores
exactly the 180-degree rotation of the (possibly letterboxed) frame. -/
theorem flip_composition_rot180 :
    (∀ img : Img, flipH (flipV img) = rot180 img)
      ∧ (∀ (img : Img) (i j : Nat),
          (flipH (flipV img)).px i j = img.px (img.h - 1 - i) (img.w - 1 - j))
      ∧ (∀ (resize : Img → Nat × Nat → Img) (rv : Nat) (st : NodeState) (msg : Img),
          image_callback resize rv true st msg
            = { cam_image := some (rot180
                (if rv > 0 then letterbox_resize resize msg (rv, rv) else msg)) }) :=
  ⟨fun _ => rfl, fun _ _ _ => rfl, fun _ _ _ _ => rfl⟩

/-- C7. In tire mode (no gating) every detection is counted and the
reported size is the fold of `area_pct` under strict greater-than
starting from zero — so the first detection attaining the maximum
fixes it; concretely a 50 × 50 box on a 100 × 100 frame has
`area_pct = 25`, and two detections of area 10 yield `biggest = 10`. -/
theorem analyze_area_strict_max :
    (∀ (e : Deps) (boxes : List Box) (image : Img),
        (analyze_results e boxes image "tire").detected = boxes.length
          ∧ (analyze_results e boxes image "tire").biggest
              = boxes.foldl
                  (fun q b => if area_pct image b > q then area_pct image b else q) 0)
      ∧ area_pct img100 box5050 = 25
      ∧ (analyze_results extTriv [boxTen, boxTen] img100 "tire").biggest = 10 := by
  refine ⟨fun e boxes image => ?_, ?_, ?_⟩
  · obtain ⟨h1, h2, _, _⟩ :=
      tire_fold e image ((image.h * image.w : ℕ) : ℚ) boxes ⟨0, 0, image, [], []⟩
    constructor
    · simpa [analyze_results] using h1
    · simpa [analyze_results, area_pct] using h2
  · norm_num [area_pct, area_of, img100, box5050]
  · norm_num [analyze_results, analyze_box_tire, countStep, area_of, img100, boxTen]

/-- C8 (counterexample). A detection whose bounding box lies entirely
outside the 100 × 100 frame is nonetheless counted (`detected = 1`,
not 0) and its area drives the size maximum (`biggest = 100`): the
analyzer has no bounds check, so the claim that such a detection is
skipped is false. -/
theorem analyze_oob_counted_cex :
    boxOutOfBounds img100 oobBox
      ∧ (analyze_results extTriv [oobBox] img100 "tire").detected = 1
      ∧ (analyze_results extTriv [oobBox] img100 "tire").biggest = 100 := by
  refine ⟨Or.inr (Or.inr (Or.inl (by norm_num [img100, oobBox]))), rfl, ?_⟩
  norm_num [analyze_results, analyze_box_tire, countStep, area_of, img100, oobBox]

/-- C8 (amended). A detection whose bounding box falls outside the frame
bounds is treated exactly like any other: it is counted and its
`area_pct` participates in the strict-max size computation.  No error
is raised on its account (numpy-style cropping clamps silently), but
neither is it skipped. -/
theorem analyze_oob_counted (e : Deps) (image : Img) (box : Box)
    (h : boxOutOfBounds image box) :
    (analyze_results e [box] image "tire").detected = 1
      ∧ (analyze_results e [box] image "tire").biggest
          = if area_pct image box > 0 then area_pct image box else 0 :=
  ⟨rfl, rfl⟩

/-- C8 (witness): the amended theorem applied to the concrete
out-of-bounds box on the 100 × 100 frame. -/
theorem analyze_oob_counted_witness :
    (analyze_results extTriv [oobBox] img100 "tire").detected = 1
      ∧ (analyze_results extTriv [oobBox] img100 "tire").biggest
          = if area_pct img100 oobBox > 0 then area_pct img100 oobBox else 0 :=
  analyze_oob_counted extTriv img100 oobBox
    (Or.inr (Or.inr (Or.inl (by norm_num [img100, oobBox]))))

/-- C9. In person mode the vest segmenter is a pure side channel: every
raw detection is counted, each box's crop is handed to the segmenter
and its mask recorded in order, and the numeric result `(count, size)`
is unchanged when the segmenter is replaced by any other function. -/
theorem person_segment_side_channel (e : Deps) (g : Img → Img) (boxes : List Box)
    (image : Img) :
    (analyze_results e boxes image "person").detected = boxes.length
      ∧ (analyze_results e boxes image "person").detected
          = (analyze_results { e with segment := g } boxes image "person").detected
      ∧ (analyze_results e boxes image "person").biggest
          = (analyze_results { e with segment := g } boxes image "person").biggest
      ∧ (analyze_results e boxes image "person").masks
          = boxes.map (fun b => e.segment (cropBox image b)) := by
  obtain ⟨h1, h2, h3, _⟩ :=
    person_fold e image ((image.h * image.w : ℕ) : ℚ) boxes ⟨0, 0, image, [], []⟩
  obtain ⟨g1, g2, _, _⟩ :=
    person_fold { e with segment := g } image ((image.h * image.w : ℕ) : ℚ) boxes
      ⟨0, 0, image, [], []⟩
  have a1 : (analyze_results e boxes image "person").detected = 0 + boxes.length := h1
  have a2 : (analyze_results { e with segment := g } boxes image "person").detected
      = 0 + boxes.length := g1
  have b1 : (analyze_results e boxes image "person").biggest
      = boxes.foldl (fun q b => if area_of ((image.h * image.w : ℕ) : ℚ) b > q
          then area_of ((image.h * image.w : ℕ) : ℚ) b else q) 0 := h2
  have b2 : (analyze_results { e with segment := g } boxes image "person").biggest
      = boxes.foldl (fun q b => if area_of ((image.h * image.w : ℕ) : ℚ) b > q
          then area_of ((image.h * image.w : ℕ) : ℚ) b else q) 0 := g2
  have m1 : (analyze_results e boxes image "person").masks
      = [] ++ boxes.map (fun b => e.segment (cropBox image b)) := h3
  refine ⟨?_, ?_, ?_, ?_⟩
  · rw [a1]; omega
  · rw [a1, a2]
  · rw [b1, b2]
  · rw [m1]; simp

/-- C9 (witness): the side-channel theorem applied to the trivial
dependencies, a replacement segmenter, one concrete box and the
100 × 100 frame. -/
theorem person_segment_side_channel_witness :
    (analyze_results extTriv [box5050] img100 "person").detected = [box5050].length
      ∧ (analyze_results extTriv [box5050] img100 "person").detected
          = (analyze_results { extTriv with segment := fun _ => img2x1 }
              [box5050] img100 "person").detected
      ∧ (analyze_results extTriv [box5050] img100 "person").biggest
          = (analyze_results { extTriv with segment := fun _ => img2x1 }
              [box5050] img100 "person").biggest
      ∧ (analyze_results extTriv [box5050] img100 "person").masks
          = [box5050].map (fun b => extTriv.segment (cropBox img100 b)) :=
  person_segment_side_channel extTriv (fun _ => img2x1) [box5050] img100

/-- C10. Detection and gating read only the unannotated frame copy:
replacing all three drawing primitives changes none of the count, the
size, the vest masks or the OCR crops (annotations are confined to the
separate buffer); in stop mode the crops handed to the OCR validator
are exactly the boxes cropped from the input frame, and in person mode
the segmented regions are exactly the boxes cropped from the input
frame — independent of any annotation drawn earlier in the pass. -/
theorem annotation_confined_to_buffer :
    (∀ (e : Deps) (l r : Img → ℤ × ℤ → ℤ × ℤ → Img)
        (t : Img → String → ℚ → ℤ × ℤ → Img) (boxes : List Box) (image : Img)
        (mode : String),
        NumEq (analyze_results e boxes image mode)
          (analyze_results { e with drawLine := l, drawRect := r, putText := t }
            boxes image mode))
      ∧ (∀ (e : Deps) (boxes : List Box) (image : Img),
          (analyze_results e boxes image "stop").ocr_crops
            = boxes.map (fun b => cropBox image b))
      ∧ (∀ (e : Deps) (boxes : List Box) (image : Img),
          (analyze_results e boxes image "person").masks
            = boxes.map (fun b => e.segment (cropBox image b))) := by
  refine ⟨fun e l r t boxes image mode => ?_, fun e boxes image => ?_,
    fun e boxes image => ?_⟩
  · exact numeq_fold e l r t image ((image.h * image.w : ℕ) : ℚ) mode boxes
      ⟨0, 0, image, [], []⟩ ⟨0, 0, image, [], []⟩ ⟨rfl, rfl, rfl, rfl⟩
  · have h := (stop_fold e image ((image.h * image.w : ℕ) : ℚ) boxes ⟨0, 0, image, [], []⟩).1
    simpa [analyze_results] using h
  · have h :=
      (person_fold e image ((image.h * image.w : ℕ) : ℚ) boxes ⟨0, 0, image, [], []⟩).2.2.1
    simpa [analyze_results] using h
